import Mathlib

/-!
Verification of the credit-ledger core of `manus_ai_smart_layer`.

This file shallowly embeds the in-repository code paths of
`src/manus_core/utils/credits.py`, `src/manus_core/config.py`,
`src/manus_core/db/client.py`, `src/manus_core/cache/manager.py` and
`src/manus_core/routing/coordinator.py`, and settles the spec's claims
about them.

Modelling conventions:
* The embedded code path is the one fully contained in the repository:
  `SharedDBClient.client` is `None` (no Supabase credentials / package),
  so every database call runs through `SharedDBClient._local_fallback`.
  The remote Supabase branch and the server-side RPC functions are not
  part of the repository.
* Python `int` is `Int`; percentages and health scores (Python `float`)
  are `ℚ` (no claim hinges on binary-float rounding; all concrete values
  chosen below are exact dyadic rationals).
* Timestamps are modelled at day granularity for the credit ledger
  (`created_at` carries a day number when the column is present and
  parseable) and at second granularity for the cache and the
  coordinator, as `Int`.
* A Python dict record is a structure; a key that some writers omit is
  an `Option` field (`none` = key absent), matching `record.get(k, d)`
  as `Option.getD`.
-/

/-! ## `manus_core.config` — `CreditConfig` and `Config.validate_operation_cost` -/

/-- `config.py` `CreditConfig` (the fields the credit path reads).
`__post_init__` validates `daily_limit > 0`, `0 ≤ warning ≤ 1`,
`0 ≤ emergency ≤ 1`, `warning < emergency`. -/
structure CreditConfig where
  daily_limit : Int
  warning_threshold : ℚ
  emergency_threshold : ℚ
  max_single_operation : Int
deriving DecidableEq, Repr

/-- The defaults of `CreditConfig` in `config.py`. -/
def defaultCreditConfig : CreditConfig :=
  { daily_limit := 300000
    warning_threshold := 8/10
    emergency_threshold := 95/100
    max_single_operation := 50000 }

/-- `Config.validate_operation_cost`, reduced to its `"valid"` field:
valid iff not `estimated_tokens > max_single_operation`. -/
def validate_operation_cost (cfg : CreditConfig) (estimated_tokens : Int) : Bool :=
  !(estimated_tokens > cfg.max_single_operation)

/-! ## Ledger records (`credit_ledger` rows) -/

/-- One `credit_ledger` row, with the keys the in-repository writers and
readers use.  `_local_reserve_credits` inserts rows with
`tokens_estimated` but no `tokens_actual` and no `created_at`;
`refund_credits` inserts rows with both token fields.  The local
fallback (`SharedDBClient._local_fallback`) adds `_timestamp`/`_id`,
never a `created_at` or `id` column, so on fallback-written rows
`created_at = none` and `id = none` while `insertedDay` (the fallback's
`_timestamp`, at day granularity) is always set. -/
structure Txn where
  user_id : String
  session_id : String
  task_id : String
  operation_type : String
  transaction_type : String
  tokens_estimated : Option Int
  tokens_actual : Option Int
  created_at : Option Int
  id : Option Int
  insertedDay : Int
deriving DecidableEq, Repr

/-! ## `manus_core.db.client.SharedDBClient` (local fallback path) -/

/-- The primary backend as seen by one call: it is either absent
(`self.client is None`) or its access raised (the `except` branches of
`insert`/`select`/`update`).  Both routes reach `_local_fallback`. -/
inductive PrimaryBackend where
  | absent
  | failing
deriving DecidableEq, Repr

/-- `_local_fallback("insert", ...)`: append the record to the
append-only log and return the record itself (truthy). -/
def localFallbackInsert {α : Type} (store : List α) (data : α) :
    List α × Option α :=
  (store ++ [data], some data)

/-- `_local_fallback("select", ...)`: `SharedDBClient.select` forwards
its arguments *positionally*
(`self._local_fallback("select", table, columns, schema, filters,
limit, order_by)`), while the select branch of `_local_fallback` reads
`filters = kwargs.get('filters', {})` and `limit = kwargs.get('limit')`
from `kwargs` — so `filters` is always the empty (falsy) dict and
`limit` is always `None`: the scan returns every parseable record of
the file in insertion order, ignoring the filters and the limit the
caller supplied (as well as the `columns` projection and `order_by`).
The filter predicate and limit are kept as (ignored) parameters to
mirror the call sites, which do pass them. -/
def localFallbackSelect {α : Type} (store : List α) (_p : α → Bool)
    (_limit : Option Nat) : List α :=
  store

/-- `_local_fallback` for `update`: "Local fallback for update not fully
implemented" — it performs no write and returns `False`. -/
def localFallbackUpdate {α : Type} (store : List α) : Bool × List α :=
  (false, store)

/-- `SharedDBClient.insert`: with no client, or on a primary failure,
the call is retried once against the local fallback and returns its
result. -/
def clientInsert {α : Type} (primary : PrimaryBackend) (store : List α)
    (data : α) : List α × Option α :=
  match primary with
  | .absent => localFallbackInsert store data
  | .failing => localFallbackInsert store data

/-- `SharedDBClient.select`: with no client, or on a primary failure,
the call is retried once against the local fallback — which, because of
the positional/`kwargs` mismatch above, returns the whole unfiltered,
unlimited file scan.  (The `schema` argument is dropped the same way on
both `insert` and `select`, so both consistently use the
project-name-keyed file.) -/
def clientSelect {α : Type} (primary : PrimaryBackend) (store : List α)
    (p : α → Bool) (limit : Option Nat) : List α :=
  match primary with
  | .absent => localFallbackSelect store p limit
  | .failing => localFallbackSelect store p limit

/-- `SharedDBClient.update`: with no client, or on a primary failure,
the call falls back to `_local_fallback("update", ...)`.  The `data`
patch and the row filter are passed through but the fallback ignores
them. -/
def clientUpdate {α : Type} (primary : PrimaryBackend) (store : List α)
    (_patch : α → α) (_p : α → Bool) : Bool × List α :=
  match primary with
  | .absent => localFallbackUpdate store
  | .failing => localFallbackUpdate store

/-- Follows the spec's words (§4.1): `updateWhere(filters, patch)`
applies the patch to every record matching the filters.  Used only to
compare the spec's contract with the code's fallback stub. -/
def specUpdateWhere {α : Type} (store : List α) (p : α → Bool)
    (patch : α → α) : List α :=
  store.map (fun r => if p r then patch r else r)

/-! ## `manus_core.utils.credits.CreditManager` (local path) -/

/-- `CreditManager._get_recent_usage(user_id)`.  The caller passes
filters (`user_id`, `transaction_type = "DEBIT"`) and `limit=100`, but
on the fallback path both are dropped (positional/`kwargs` mismatch in
`_local_fallback`), so the select yields every record of the file; the
function's own loop then keeps the rows whose `created_at` parses to
today's date.  `datetime.fromisoformat(record.get('created_at', ''))`
raises on any row whose `created_at` key is absent (every
fallback-written row), and the surrounding `except` then returns `[]`;
a raising select is caught the same way.  `dbSelect` is the select
outcome: `.error` models the select itself raising, `.ok rows` the log
it scanned. -/
def getRecentUsage (dbSelect : Except Unit (List Txn)) (user_id : String)
    (today : Int) : List Txn :=
  match dbSelect with
  | .error _ => []
  | .ok rows =>
    let sel := localFallbackSelect rows
      (fun t => t.user_id == user_id && t.transaction_type == "DEBIT") (some 100)
    if sel.all (fun t => t.created_at.isSome) then
      sel.filter (fun t => t.created_at == some today)
    else []

/-- `used_today = sum(usage.get('tokens_actual', 0) for usage in recent_usage)`
in `CreditManager._local_credit_check`. -/
def usedToday (dbSelect : Except Unit (List Txn)) (user_id : String)
    (today : Int) : Int :=
  ((getRecentUsage dbSelect user_id today).map
    (fun t => t.tokens_actual.getD 0)).sum

/-- The decision record returned by `check_credit_availability` /
`_local_credit_check`.  `isError` marks the record built by
`check_credit_availability`'s own `except` handler (which also carries
`remaining_balance = 0` and `usage_percentage = 100`). -/
structure CreditDecision where
  allowed : Bool
  remaining_balance : Int
  estimated_tokens : Option Int
  shortage : Option Int
  usage_percentage : ℚ
  isError : Bool
deriving DecidableEq, Repr

/-- `CreditManager._local_credit_check`. -/
def localCreditCheck (dbSelect : Except Unit (List Txn)) (user_id : String)
    (estimated_tokens : Int) (cfg : CreditConfig) (today : Int) :
    CreditDecision :=
  let used := usedToday dbSelect user_id today
  let remaining := cfg.daily_limit - used
  if remaining ≥ estimated_tokens then
    { allowed := true
      remaining_balance := remaining
      estimated_tokens := some estimated_tokens
      shortage := none
      usage_percentage := ((used : ℚ) / (cfg.daily_limit : ℚ)) * 100
      isError := false }
  else
    { allowed := false
      remaining_balance := remaining
      estimated_tokens := some estimated_tokens
      shortage := some (estimated_tokens - remaining)
      usage_percentage := ((used : ℚ) / (cfg.daily_limit : ℚ)) * 100
      isError := false }

/-- `CreditManager.check_credit_availability` in the local path
(`self.db_client.client` is `None`, so the RPC branch is skipped and
`_local_credit_check` runs inside the `try`).  The only statement in
that scope that can raise is the division by `daily_limit` (a
`ZeroDivisionError` when the configured limit is zero, which the
validated configuration excludes); the `except` handler then returns
the fail-closed record `allowed=False, remaining_balance=0,
usage_percentage=100`. -/
def check_credit_availability (dbSelect : Except Unit (List Txn))
    (user_id : String) (estimated_tokens : Int) (cfg : CreditConfig)
    (today : Int) : CreditDecision :=
  if cfg.daily_limit == 0 then
    { allowed := false
      remaining_balance := 0
      estimated_tokens := none
      shortage := none
      usage_percentage := 100
      isError := true }
  else
    localCreditCheck dbSelect user_id estimated_tokens cfg today

/-- The RESERVED row built by `CreditManager._local_reserve_credits`:
`transaction_type "DEBIT"`, `tokens_estimated` set, no `tokens_actual`
key; written through the local fallback, so no `created_at`/`id`
columns, only the fallback's `_timestamp` (here `insertedDay`). -/
def reservationTxn (user_id session_id operation_id operation_type : String)
    (estimated_tokens : Int) (today : Int) : Txn :=
  { user_id := user_id
    session_id := session_id
    task_id := operation_id
    operation_type := operation_type
    transaction_type := "DEBIT"
    tokens_estimated := some estimated_tokens
    tokens_actual := none
    created_at := none
    id := none
    insertedDay := today }

/-- `CreditManager._local_reserve_credits`: re-check availability, then
insert the RESERVED row; `bool(result)` of the returned (non-empty)
record is `True`. -/
def local_reserve_credits (ledger : List Txn)
    (user_id session_id operation_id operation_type : String)
    (estimated_tokens : Int) (cfg : CreditConfig) (today : Int) :
    Bool × List Txn :=
  let availability :=
    check_credit_availability (.ok ledger) user_id estimated_tokens cfg today
  if !availability.allowed then
    (false, ledger)
  else
    let row := reservationTxn user_id session_id operation_id operation_type
      estimated_tokens today
    ((clientInsert .absent ledger row).2.isSome, (clientInsert .absent ledger row).1)

/-- `CreditManager.reserve_credits` in the local path: a failing
`validate_operation_cost` raises `CreditGuardError`, which the
function's own `except` turns into `False`; otherwise
`_local_reserve_credits` runs. -/
def reserve_credits (ledger : List Txn)
    (user_id session_id operation_id operation_type : String)
    (estimated_tokens : Int) (cfg : CreditConfig) (today : Int) :
    Bool × List Txn :=
  if !(validate_operation_cost cfg estimated_tokens) then
    (false, ledger)
  else
    local_reserve_credits ledger user_id session_id operation_id
      operation_type estimated_tokens cfg today

/-- `CreditManager.update_actual_usage` in the local path.  The select
passes the filters `task_id = operation_id`, `operation_type =
"ESTIMATE"` and `limit=1`, but the fallback drops them, so
`reservations` is the whole file and `reservations[0]` is its first
row, whatever its operation id.  With an empty file it returns
`False`.  Otherwise the update's filter `{"id": reservation["id"]}`
evaluates `reservation["id"]`: a fallback-written row has no `id` key,
so this raises `KeyError` and the `except` returns `False`; if the row
did carry an `id`, `SharedDBClient.update` still reaches the
unimplemented fallback stub, which writes nothing and returns `False`. -/
def update_actual_usage (ledger : List Txn) (operation_id : String)
    (_actual_tokens : Int) : Bool × List Txn :=
  let reservations := localFallbackSelect ledger
    (fun t => t.task_id == operation_id && t.operation_type == "ESTIMATE")
    (some 1)
  match reservations with
  | [] => (false, ledger)
  | r :: _ =>
    match r.id with
    | none => (false, ledger)
    | some _ =>
      (localFallbackUpdate ledger).1 |> fun ok => (ok, (localFallbackUpdate ledger).2)

/-- The CREDIT row built by `CreditManager.refund_credits` (with
`operation_type "REFUND"` and both token fields set to the refunded
amount); written through the local fallback. -/
def refundTxn (orig : Txn) (operation_id : String) (tokens_to_refund : Int)
    (today : Int) : Txn :=
  { user_id := orig.user_id
    session_id := "refund_" ++ toString today
    task_id := operation_id
    operation_type := "REFUND"
    transaction_type := "CREDIT"
    tokens_estimated := some tokens_to_refund
    tokens_actual := some tokens_to_refund
    created_at := none
    id := none
    insertedDay := today }

/-- `CreditManager.refund_credits` in the local path.  The select
passes the filter `task_id = operation_id`, but the fallback drops it,
so `transactions` is the whole file and `transactions[0]` its first
row, whatever its operation id; with an empty file it returns `False`.
`tokens_to_refund = original.get("tokens_estimated", 0)`;
if that is `≤ 0` the function returns `True` without inserting
anything.  Otherwise the refund record's metadata evaluates
`original_transaction["id"]`: on a fallback-written row this raises
`KeyError` before the insert and the `except` returns `False`; on a row
that does carry `id`, the refund row is inserted and `bool(result)` is
`True`. -/
def refund_credits (ledger : List Txn) (operation_id : String)
    (today : Int) : Bool × List Txn :=
  let transactions := localFallbackSelect ledger
    (fun t => t.task_id == operation_id) none
  match transactions with
  | [] => (false, ledger)
  | orig :: _ =>
    let tokens_to_refund := orig.tokens_estimated.getD 0
    if tokens_to_refund ≤ 0 then
      (true, ledger)
    else
      match orig.id with
      | none => (false, ledger)
      | some _ =>
        let row := refundTxn orig operation_id tokens_to_refund today
        ((clientInsert .absent ledger row).2.isSome,
         (clientInsert .absent ledger row).1)

/-! ## Spec-derived accounting (for comparison with the code) -/

/-- Follows the spec's words (§3/§4.2): a transaction is REFUNDED once a
REFUND references its operation id. -/
def specIsRefunded (ledger : List Txn) (t : Txn) : Bool :=
  ledger.any (fun r => r.operation_type == "REFUND" && r.task_id == t.task_id)

/-- Follows the spec's words (§4.2): the open (RESERVED or SETTLED,
i.e. non-REFUNDED consuming) transactions of one operation id. -/
def specOpenTxns (ledger : List Txn) (operation_id : String) : List Txn :=
  ledger.filter (fun t =>
    t.task_id == operation_id && t.transaction_type == "DEBIT" &&
      !(specIsRefunded ledger t))

/-- Follows the spec's words (§4.2): `usedToday = Σ tokens of
non-REFUNDED transactions for principal with created_at in the current
budget day`, a settled transaction counting its actual tokens and a
still-reserved one its estimate (§4.2: settlement supersedes the
estimate).  `insertedDay` is the day the row was actually written. -/
def specUsedToday (ledger : List Txn) (user_id : String) (today : Int) : Int :=
  ((ledger.filter (fun t =>
      t.user_id == user_id && t.transaction_type == "DEBIT" &&
        t.insertedDay == today && !(specIsRefunded ledger t))).map
    (fun t => t.tokens_actual.getD (t.tokens_estimated.getD 0))).sum

/-! ## `manus_core.cache.manager.CacheManager` -/

/-- Association-list lookup (Python dict read). -/
def alistLookup {β : Type} (l : List (String × β)) (k : String) : Option β :=
  match l.find? (fun kv => kv.1 == k) with
  | some kv => some kv.2
  | none => none

/-- Association-list write (Python dict assignment: replace in place if
the key exists, else append — dicts preserve insertion order). -/
def alistInsert {β : Type} (l : List (String × β)) (k : String) (v : β) :
    List (String × β) :=
  if l.any (fun kv => kv.1 == k) then
    l.map (fun kv => if kv.1 == k then (k, v) else kv)
  else
    l ++ [(k, v)]

/-- Association-list removal (`dict.pop(k, None)` / file unlink). -/
def alistErase {β : Type} (l : List (String × β)) (k : String) :
    List (String × β) :=
  l.filter (fun kv => kv.1 != k)

/-- Stable ascending sort by an `Int` key (Python's `sorted` with a
`key=` function is stable); insertion sort. -/
def sortByIntKey {α : Type} (key : α → Int) : List α → List α
  | [] => []
  | x :: xs =>
    let rec ins (x : α) : List α → List α
      | [] => [x]
      | y :: ys => if key x < key y then x :: y :: ys else y :: ins x ys
    ins x (sortByIntKey key xs)

/-- One on-disk cache file: either a well-formed pickle of
`{value, timestamp, type}` or a corrupt blob (`_deserialize_value`
then yields `(None, 0)`).  `mtime` is the file's modification time
(equal to the write time for well-formed entries) and `size` its byte
size, both used by `_cleanup_disk_cache`. -/
inductive DiskEntry where
  | good (value : String) (timestamp : Int) (size : Nat)
  | corrupt (mtime : Int) (size : Nat)
deriving DecidableEq, Repr

/-- File modification time of a disk entry. -/
def DiskEntry.mtime : DiskEntry → Int
  | .good _ ts _ => ts
  | .corrupt m _ => m

/-- File size of a disk entry. -/
def DiskEntry.size : DiskEntry → Nat
  | .good _ _ sz => sz
  | .corrupt _ sz => sz

/-- `CacheManager` state: the tier-1 in-process maps `memory_cache`
(values) and `memory_cache_ttl` (absolute expiry times), the tier-2
on-disk files, and the sweep throttle `last_cleanup`.  Disk files are
keyed here by the cache key itself (the source keys them by
`md5(cache_key)`, modelled as injective). -/
structure CacheState where
  memory_cache : List (String × String)
  memory_cache_ttl : List (String × Int)
  disk : List (String × DiskEntry)
  last_cleanup : Int
deriving DecidableEq, Repr

/-- `self.default_ttl = 3600`. -/
def cacheDefaultTtl : Int := 3600

/-- `self.memory_cache_max_size = 1000`. -/
def memory_cache_max_size : Nat := 1000

/-- `self.max_cache_size = 100 * 1024 * 1024`. -/
def max_cache_size : Nat := 100 * 1024 * 1024

/-- `self.cleanup_interval = 3600`. -/
def cacheCleanupInterval : Int := 3600

/-- A fresh `CacheManager` created at time `t0`
(`self.last_cleanup = time.time()`). -/
def freshCache (t0 : Int) : CacheState :=
  { memory_cache := [], memory_cache_ttl := [], disk := [], last_cleanup := t0 }

/-- `CacheManager._cleanup_memory_cache`: drop entries whose expiry has
passed (`current_time > ttl_time`), then, if still over capacity, drop
the oldest-by-expiry entries down to capacity. -/
def cleanupMemoryCache (s : CacheState) (now : Int) : CacheState :=
  let expired := (s.memory_cache_ttl.filter (fun kv => now > kv.2)).map (·.1)
  let mem := s.memory_cache.filter (fun kv => !(expired.contains kv.1))
  let ttl := s.memory_cache_ttl.filter (fun kv => !(expired.contains kv.1))
  if mem.length > memory_cache_max_size then
    let sorted := sortByIntKey (·.2) ttl
    let toRemove := (sorted.take (mem.length - memory_cache_max_size)).map (·.1)
    { s with
      memory_cache := mem.filter (fun kv => !(toRemove.contains kv.1))
      memory_cache_ttl := ttl.filter (fun kv => !(toRemove.contains kv.1)) }
  else
    { s with memory_cache := mem, memory_cache_ttl := ttl }

/-- The delete-oldest loop of `_cleanup_disk_cache`: walk the files in
ascending `mtime` order, unlink and subtract until the running total
falls to at most the headroom target; the files not yet visited
survive. -/
def evictOldest (target : Nat) : List (String × DiskEntry) → Nat →
    List (String × DiskEntry)
  | [], _ => []
  | e :: rest, total =>
    let total' := total - e.2.size
    if total' ≤ target then rest else evictOldest target rest total'

/-- `CacheManager._cleanup_disk_cache`: throttled to once per
`cleanup_interval`; first unlink files older than `default_ttl * 2`,
then, if the total size still exceeds `max_cache_size`, unlink
oldest-by-mtime files until the total is at most 80% of
`max_cache_size`. -/
def cleanupDiskCache (s : CacheState) (now : Int) : CacheState :=
  if now - s.last_cleanup < cacheCleanupInterval then s
  else
    let kept := s.disk.filter (fun kv => !(now - kv.2.mtime > cacheDefaultTtl * 2))
    let total := (kept.map (fun kv => kv.2.size)).sum
    let kept' :=
      if total > max_cache_size then
        evictOldest (max_cache_size * 8 / 10) (sortByIntKey (fun kv => kv.2.mtime) kept) total
      else kept
    { s with disk := kept', last_cleanup := now }

/-- The tier-2 half of `CacheManager.get`: read the file, treat a
corrupt record as a miss and unlink it; an expired record is unlinked
and missed; a live record is promoted into tier 1 with a fresh
5-minute expiry. -/
def CacheManager.getFromDisk (s : CacheState) (now : Int) (k : String) :
    Option String × CacheState :=
  match alistLookup s.disk k with
  | none => (none, s)
  | some (.corrupt _ _) => (none, { s with disk := alistErase s.disk k })
  | some (.good v ts _) =>
    if !(now - ts > cacheDefaultTtl) then
      (some v,
        { s with
          memory_cache := alistInsert s.memory_cache k v
          memory_cache_ttl := alistInsert s.memory_cache_ttl k (now + 300) })
    else
      (none, { s with disk := alistErase s.disk k })

/-- `CacheManager.get` (with the key already namespaced): tier 1 first
(a hit requires `now ≤ expiry`; an expired tier-1 entry is popped from
both maps), then tier 2. -/
def CacheManager.get (s : CacheState) (now : Int) (k : String) :
    Option String × CacheState :=
  match alistLookup s.memory_cache k with
  | some v =>
    match alistLookup s.memory_cache_ttl k with
    | some tExp =>
      if now ≤ tExp then (some v, s)
      else
        CacheManager.getFromDisk
          { s with
            memory_cache := alistErase s.memory_cache k
            memory_cache_ttl := alistErase s.memory_cache_ttl k } now k
    | none => CacheManager.getFromDisk s now k
  | none => CacheManager.getFromDisk s now k

/-- `CacheManager.set` (with the key already namespaced): `ttl = ttl or
self.default_ttl` (so a falsy `0`/`None` becomes the default), tier 1
gets expiry `now + min(ttl, 300)`, tier 2 gets the serialized record
stamped `now` (of byte size `size`), then both cleanups run; returns
`True`. -/
def CacheManager.set (s : CacheState) (now : Int) (k : String) (v : String)
    (ttl : Option Int) (size : Nat) : Bool × CacheState :=
  let ttlEff := match ttl with
    | none => cacheDefaultTtl
    | some t => if t == 0 then cacheDefaultTtl else t
  let s1 :=
    { s with
      memory_cache := alistInsert s.memory_cache k v
      memory_cache_ttl := alistInsert s.memory_cache_ttl k (now + min ttlEff 300) }
  let s2 := { s1 with disk := alistInsert s1.disk k (.good v now size) }
  let s3 := cleanupMemoryCache s2 now
  (true, cleanupDiskCache s3 now)

/-! ## `manus_core.routing.coordinator.ProjectCoordinator` -/

/-- The `shared.system_manifest` row fields that
`ProjectCoordinator.get_system_status` reads (numeric/time fields;
`last_update` timestamps are already parsed to seconds). -/
structure Manifest where
  daily_credits_project1 : Int
  daily_limit_project1 : Int
  daily_credits_project2 : Int
  daily_limit_project2 : Int
  project1_last_update : Int
  project2_last_update : Int
  project1_health_score : ℚ
  project2_health_score : ℚ
  project1_active_operations : Int
  project2_active_operations : Int
deriving DecidableEq, Repr

/-- The `ProjectStatus` dataclass fields that the coordination logic
reads. -/
structure ProjectStatusRec where
  daily_credits_used : Int
  daily_credits_limit : Int
  last_update : Int
  health_score : ℚ
  active_operations : Int
deriving DecidableEq, Repr

/-- The system-status summary built by
`ProjectCoordinator.get_system_status`. -/
structure SystemStatus where
  combined_credit_usage : ℚ
  total_credits_used : Int
  total_credits_limit : Int
  average_health_score : ℚ
  smart_layer : ProjectStatusRec
  manus_origin : ProjectStatusRec
deriving DecidableEq, Repr

/-- `ProjectCoordinator.get_system_status`: `none` models the
"No manifest data found" error dictionary (or the `except` branch);
otherwise the two `ProjectStatus` records and the combined metrics are
computed from the manifest row. -/
def get_system_status (manifest : Option Manifest) : Option SystemStatus :=
  match manifest with
  | none => none
  | some m =>
    let sl : ProjectStatusRec :=
      { daily_credits_used := m.daily_credits_project1
        daily_credits_limit := m.daily_limit_project1
        last_update := m.project1_last_update
        health_score := m.project1_health_score
        active_operations := m.project1_active_operations }
    let mo : ProjectStatusRec :=
      { daily_credits_used := m.daily_credits_project2
        daily_credits_limit := m.daily_limit_project2
        last_update := m.project2_last_update
        health_score := m.project2_health_score
        active_operations := m.project2_active_operations }
    let total_used := sl.daily_credits_used + mo.daily_credits_used
    let total_limit := sl.daily_credits_limit + mo.daily_credits_limit
    let combined : ℚ :=
      if total_limit > 0 then ((total_used : ℚ) / (total_limit : ℚ)) * 100 else 0
    let avg : ℚ := (sl.health_score + mo.health_score) / 2
    some
      { combined_credit_usage := combined
        total_credits_used := total_used
        total_credits_limit := total_limit
        average_health_score := avg
        smart_layer := sl
        manus_origin := mo }

/-- One `shared.communication_log` row as the coordination logic reads
it.  `ProjectCoordinator.send_message` inserts rows *without* a
`read_status` key, so on locally-inserted rows `read_status = none`;
only a row whose column is literally `False` matches the unread filter
(`record.get("read_status") == False`). -/
structure MessageRec where
  message_id : String
  from_project : String
  to_project : String
  message_type : String
  priority : String
  read_status : Option Bool
deriving DecidableEq, Repr

/-- `ProjectCoordinator.get_unread_messages(limit)`: the call passes
the filters `to_project = self.project_name`, `read_status = False`,
the `-created_at` ordering and the limit, but the fallback drops all of
them (positional/`kwargs` mismatch), so every record of the
communication log comes back in insertion order.  The per-message
parse into `CoordinationMessage` fills every missing field with a
default, so no record is skipped either.  (Had the filter applied,
locally-sent rows could still never match it: `send_message` writes no
`read_status` key at all.) -/
def get_unread_messages (log : List MessageRec) (project_name : String)
    (limit : Nat) : List MessageRec :=
  localFallbackSelect log
    (fun msg => msg.to_project == project_name && msg.read_status == some false)
    (some limit)

/-- The verdict record of
`ProjectCoordinator.check_coordination_requirements`. -/
structure CoordinationCheck where
  coordination_needed : Bool
  unread_messages : Nat
  critical_messages : Nat
deriving DecidableEq, Repr

/-- `ProjectCoordinator.check_coordination_requirements`: with no
system status it reports no coordination needed; otherwise coordination
is needed when any of the four triggers fires: combined credit usage
above 80%, *average* health score below 0.6, last-update timestamps
apart by more than 3600 seconds, or a `critical`-priority message among
the messages fetched by `get_unread_messages(10)` — which, on the
fallback path, is every message in the log (the addressee/unread
filters and the 10-cap are dropped). -/
def check_coordination_requirements (manifest : Option Manifest)
    (log : List MessageRec) (project_name : String) : CoordinationCheck :=
  match get_system_status manifest with
  | none => { coordination_needed := false, unread_messages := 0, critical_messages := 0 }
  | some ss =>
    let trigUsage := ss.combined_credit_usage > 80
    let trigHealth := ss.average_health_score < 6/10
    let time_diff := |ss.smart_layer.last_update - ss.manus_origin.last_update|
    let trigSync := time_diff > 3600
    let unread := get_unread_messages log project_name 10
    let critical := unread.filter (fun msg => msg.priority == "critical")
    let trigCritical := !critical.isEmpty
    { coordination_needed := trigUsage || trigHealth || trigSync || trigCritical
      unread_messages := unread.length
      critical_messages := critical.length }

/-! ## Scenario helpers and auxiliary lemmas -/

/-- Driver for a concrete sequence of reservation calls by principal
`"u"` on budget day `0` under the default configuration: folds
`reserve_credits` over `(operation_id, estimated_tokens)` pairs,
conjoining the returned admission flags. -/
def runReserveSequence (ops : List (String × Int)) (ledger : List Txn) :
    Bool × List Txn :=
  ops.foldl (fun acc op =>
    let r := reserve_credits acc.2 "u" "s" op.1 "LLM_CALL" op.2
      defaultCreditConfig 0
    (acc.1 && r.1, r.2)) (true, ledger)

/-- Seven reservations of 50000 tokens each — 350000 tokens against the
default daily limit of 300000. -/
def sevenReserves : List (String × Int) :=
  [("op1", 50000), ("op2", 50000), ("op3", 50000), ("op4", 50000),
   ("op5", 50000), ("op6", 50000), ("op7", 50000)]

/-- The ledger after reserving the same operation id twice. -/
def c2Ledger : List Txn := (runReserveSequence [("op", 100), ("op", 100)] []).2

/-- The ledger after one reservation inserted with the caller-supplied
operation type `"ESTIMATE"` (the only value the settle filter could
match on the remote path; on the fallback path the filter is dropped
and the head row is used either way). -/
def c3Ledger : List Txn :=
  (reserve_credits [] "u" "s" "op" "ESTIMATE" 1000 defaultCreditConfig 0).2

/-- The ledger after one 400-token reservation. -/
def c4Ledger : List Txn :=
  (reserve_credits [] "u" "s" "op" "LLM_CALL" 400 defaultCreditConfig 0).2

/-- The ledger after one reservation of operation `"op5"`. -/
def c5Ledger : List Txn :=
  (reserve_credits [] "u" "s" "op5" "ESTIMATE" 1000 defaultCreditConfig 0).2

/-- A ledger row as the primary backend would serve it (all columns
present): a settled 300000-token debit of principal `"u"` created on
day 0. -/
def c10Row : Txn :=
  { user_id := "u"
    session_id := "s"
    task_id := "op0"
    operation_type := "ACTUAL"
    transaction_type := "DEBIT"
    tokens_estimated := some 300000
    tokens_actual := some 300000
    created_at := some 0
    id := some 1
    insertedDay := 0 }

lemma alistInsert_nil {β : Type} (k : String) (v : β) :
    alistInsert [] k v = [(k, v)] := by
  simp [alistInsert]

lemma alistLookup_single_hit {β : Type} (k : String) (v : β) :
    alistLookup [(k, v)] k = some v := by
  simp [alistLookup, List.find?]

lemma alistErase_single (k : String) {β : Type} (v : β) :
    alistErase [(k, v)] k = [] := by
  simp [alistErase]

lemma cleanupMemoryCache_single_live (k v : String) (e now : Int)
    (d : List (String × DiskEntry)) (lc : Int) (h : ¬ now > e) :
    cleanupMemoryCache ⟨[(k, v)], [(k, e)], d, lc⟩ now =
      ⟨[(k, v)], [(k, e)], d, lc⟩ := by
  simp [cleanupMemoryCache, memory_cache_max_size, h]

lemma cleanupDiskCache_skip (s : CacheState) (now : Int)
    (h : now - s.last_cleanup < cacheCleanupInterval) :
    cleanupDiskCache s now = s := by
  simp [cleanupDiskCache, h]

/-- The cache state right after `set(k, v, ttl=T)` at time 0 on a fresh
manager: tier 1 holds the value until `min T 300`, tier 2 holds the
record stamped 0, and both cleanups were no-ops. -/
lemma c8_set_state (T : Int) (hT : 0 < T) :
    (CacheManager.set (freshCache 0) 0 "k" "v" (some T) 1).2 =
      ⟨[("k", "v")], [("k", min T 300)], [("k", .good "v" 0 1)], 0⟩ := by
  have hT0 : (T == 0) = false := by simp; omega
  have hlive : ¬ (0 : Int) > min T 300 := by
    have : (0 : Int) ≤ min T 300 := le_min (le_of_lt hT) (by norm_num)
    omega
  simp only [CacheManager.set, freshCache, hT0, Bool.false_eq_true, if_false,
    alistInsert_nil, zero_add]
  rw [cleanupMemoryCache_single_live _ _ _ _ _ _ hlive,
    cleanupDiskCache_skip _ _ (by norm_num [cacheCleanupInterval])]

lemma isEmpty_false_iff {α : Type} (l : List α) : l.isEmpty = false ↔ l ≠ [] := by
  cases l <;> simp

/-- A manifest where the `smart_layer` principal's health score (0.25)
is far below the 0.6 floor while `manus_origin` is perfectly healthy,
usage is zero and both principals updated at the same instant. -/
def c9Manifest : Manifest :=
  { daily_credits_project1 := 0
    daily_limit_project1 := 300000
    daily_credits_project2 := 0
    daily_limit_project2 := 300000
    project1_last_update := 0
    project2_last_update := 0
    project1_health_score := 1/4
    project2_health_score := 1
    project1_active_operations := 0
    project2_active_operations := 0 }

/-! ## Claims -/

/-- Claim C1 (code bug): the claim says every admitted reservation
satisfies `usedToday + estimatedTokens ≤ daily_limit` with `usedToday`
derived from the day's non-REFUNDED transactions.  The code violates
this: `_local_credit_check` sums only `tokens_actual` of rows whose
`created_at` column parses, and reservation rows have neither, so the
derived admission basis is always 0.  Under the default configuration
(daily limit 300000, per-operation cap 50000), seven consecutive
50000-token reservations are all admitted, although at the seventh call
the day's non-REFUNDED total already equals the full daily limit. -/
theorem C1_reserve_admits_past_daily_limit :
    (runReserveSequence sevenReserves []).1 = true ∧
    specUsedToday (runReserveSequence (sevenReserves.take 6) []).2 "u" 0 = 300000 ∧
    specUsedToday (runReserveSequence (sevenReserves.take 6) []).2 "u" 0 + 50000 >
      defaultCreditConfig.daily_limit := by
  decide

/-- Claim C2 (code bug): the claim says at most one open (non-REFUNDED)
transaction exists per operation id and a refund terminates exactly one
open transaction exactly once.  The code violates both parts: nothing
prevents reserving the same operation id twice (two open DEBIT rows
result), and `refund_credits` on a fallback-written reservation raises
`KeyError` on the missing `id` column and returns `False` without
terminating or crediting anything. -/
theorem C2_open_transactions_not_unique_and_refund_never_terminates :
    (runReserveSequence [("op", 100), ("op", 100)] []).1 = true ∧
    (specOpenTxns c2Ledger "op").length = 2 ∧
    refund_credits c2Ledger "op" 0 = (false, c2Ledger) := by
  decide

/-- Claim C3 (code bug): the claim says `settle(op, A)` after
`reserve(op, E)` records `A` and later used-today computations count
`A`.  In the code, `update_actual_usage` on the fallback path always
returns `False` and leaves the ledger unchanged (the row lacks the `id`
column, and the fallback `update` is an unimplemented stub), so neither
`E = 1000` nor `A = 800` ever appears in any subsequent used-today
computation, which stays at 0. -/
theorem C3_settle_records_nothing :
    (reserve_credits [] "u" "s" "op" "ESTIMATE" 1000 defaultCreditConfig 0).1 = true ∧
    update_actual_usage c3Ledger "op" 800 = (false, c3Ledger) ∧
    usedToday (.ok (update_actual_usage c3Ledger "op" 800).2) "u" 0 = 0 := by
  decide

/-- Claim C4 (code bug): the claim says `reserve(op, E)` then
`refund(op)` restores the derived remaining balance exactly.  In the
code the 400-token reservation never debits the code-derived balance in
the first place (it stays at the full 300000), the refund fails
(`KeyError` on the missing `id` column) inserting nothing, and the
spec-derived used-today sum stays at 400 after the refund attempt —
nothing is debited, terminated or restored. -/
theorem C4_refund_restores_nothing :
    (reserve_credits [] "u" "s" "op" "LLM_CALL" 400 defaultCreditConfig 0).1 = true ∧
    (check_credit_availability (.ok c4Ledger) "u" 0 defaultCreditConfig 0).remaining_balance
      = 300000 ∧
    refund_credits c4Ledger "op" 0 = (false, c4Ledger) ∧
    specUsedToday c4Ledger "u" 0 = 400 := by
  decide

/-- Claim C5 (code bug): the claim says a second `settle` on an
already-settled operation fails with `DuplicateSettlement` and leaves
the post-first-settlement state unchanged.  In the code no operation
can ever become settled on the fallback path — both the first and the
second `update_actual_usage` call return the same generic `False`
without touching the ledger, and no `ACTUAL` (settled) row or recorded
`tokens_actual` ever exists. -/
theorem C5_double_settle_no_duplicate_settlement :
    update_actual_usage c5Ledger "op5" 800 = (false, c5Ledger) ∧
    update_actual_usage (update_actual_usage c5Ledger "op5" 800).2 "op5" 800
      = (false, c5Ledger) ∧
    (c5Ledger.filter (fun t => t.operation_type == "ACTUAL" || t.tokens_actual.isSome)).length
      = 0 := by
  decide

/-- Claim C6 counterexample: with the default configuration (cap 50000)
and an empty ledger, `check_credit_availability` allows a 60000-token
request — the per-operation cap is not checked there. -/
theorem C6_check_availability_allows_oversized :
    (check_credit_availability (.ok []) "u" 60000 defaultCreditConfig 0).allowed = true ∧
    defaultCreditConfig.max_single_operation < 60000 := by
  decide

/-- Claim C6 (as amended): the per-operation cap is enforced by
`reserve_credits` (via `Config.validate_operation_cost`), independently
of any remaining balance: every request strictly above
`max_single_operation` is denied there, whatever the ledger holds. -/
theorem C6_reserve_rejects_oversized (ledger : List Txn)
    (user_id session_id operation_id operation_type : String)
    (estimated_tokens : Int) (cfg : CreditConfig) (today : Int)
    (h : cfg.max_single_operation < estimated_tokens) :
    reserve_credits ledger user_id session_id operation_id operation_type
      estimated_tokens cfg today = (false, ledger) := by
  simp [reserve_credits, validate_operation_cost, h]

/-- Witness for `C6_reserve_rejects_oversized` at a 60000-token request
under the default configuration. -/
theorem C6_reserve_rejects_oversized_witness :
    defaultCreditConfig.max_single_operation < 60000 ∧
    reserve_credits [] "u" "s" "op" "T" 60000 defaultCreditConfig 0 = (false, []) :=
  ⟨by decide,
    C6_reserve_rejects_oversized [] "u" "s" "op" "T" 60000 defaultCreditConfig 0 (by decide)⟩

/-- Claim C7 counterexample: an update whose primary access fails is
*not* applied by the fallback: on a one-row store the call returns
`False` and leaves the store untouched, while the spec's
`updateWhere` contract would have patched the matching row. -/
theorem C7_fallback_update_has_no_effect :
    clientUpdate PrimaryBackend.failing [c10Row]
      (fun t => { t with tokens_actual := some 5 })
      (fun t => t.task_id == "op0") = (false, [c10Row]) ∧
    specUpdateWhere [c10Row] (fun t => t.task_id == "op0")
      (fun t => { t with tokens_actual := some 5 }) ≠ [c10Row] := by
  decide

/-- Claim C7 (as amended): whether the primary backend is absent or its
access fails, every store operation runs exactly once against the local
fallback and returns the fallback's result.  For `insert` the fallback
appends the record to the durable log and returns it (the write is
never dropped).  For `select` the fallback returns the *entire* log,
ignoring the caller's filters and limit (they are forwarded
positionally but read from `kwargs`).  For `update` the fallback is an
unimplemented stub that performs no write and returns `False`, so a
failed primary update does not take effect. -/
theorem C7_store_operations_route_to_fallback {α : Type}
    (p : PrimaryBackend) (store : List α) (data : α) (pred : α → Bool)
    (lim : Option Nat) (patch : α → α) (upred : α → Bool) :
    clientInsert p store data = (store ++ [data], some data) ∧
    clientSelect p store pred lim = store ∧
    clientUpdate p store patch upred = (false, store) := by
  cases p <;>
    simp [clientInsert, clientSelect, clientUpdate, localFallbackInsert,
      localFallbackSelect, localFallbackUpdate]

/-- Claim C8 counterexample: `set("k", "v", ttl=100)` at time 0, then
`get("k")` at time 200 — after the entry's TTL of 100 has elapsed — still
returns `"v"`: the disk tier ignores the per-entry TTL and applies the
manager-wide default of 3600 seconds. -/
theorem C8_get_after_ttl_still_returns_value :
    (CacheManager.get (CacheManager.set (freshCache 0) 0 "k" "v" (some 100) 1).2
      200 "k").1 = some "v" ∧ (100 : Int) < 200 := by
  decide

/-- Claim C8 (as amended): after `set(k, v, ttl=T)` on a fresh cache,
`get(k)` returns `v` exactly while at most `default_ttl = 3600` seconds
have elapsed — the memory tier serves it up to `min T 300` and the disk
tier up to 3600, irrespective of `T` — and once 3600 seconds have
elapsed the `get` misses and removes the entry from both tiers
(restoring the fresh state). -/
theorem C8_default_ttl_governs_expiry (T t : Int) (hT : 0 < T) (ht : 0 ≤ t) :
    ((CacheManager.get (CacheManager.set (freshCache 0) 0 "k" "v" (some T) 1).2 t "k").1
        = if t ≤ 3600 then some "v" else none) ∧
    (3600 < t →
      (CacheManager.get (CacheManager.set (freshCache 0) 0 "k" "v" (some T) 1).2 t "k").2
        = freshCache 0) := by
  rw [c8_set_state T hT]
  by_cases hmem : t ≤ min T 300
  · have h36 : t ≤ 3600 := by
      have : min T 300 ≤ 300 := min_le_right _ _
      omega
    simp only [CacheManager.get, alistLookup_single_hit, if_pos hmem]
    exact ⟨by rw [if_pos h36], fun hc => absurd h36 (by omega)⟩
  · simp only [CacheManager.get, alistLookup_single_hit, if_neg hmem, alistErase_single]
    by_cases h36 : t ≤ 3600
    · have hlive : ¬ (t - 0 > cacheDefaultTtl) := by
        simp only [cacheDefaultTtl]; omega
      simp only [CacheManager.getFromDisk, alistLookup_single_hit]
      constructor
      · simp only [cacheDefaultTtl]
        simp [h36, show t - 0 ≤ 3600 by omega]
      · intro hc; exact absurd h36 (by omega)
    · have hdead : (t - 0 > cacheDefaultTtl) := by
        simp only [cacheDefaultTtl]; omega
      simp only [CacheManager.getFromDisk, alistLookup_single_hit, alistErase_single]
      rw [if_neg (by simpa using hdead)]
      constructor
      · rw [if_neg h36]
      · intro _; rfl

/-- Witness for `C8_default_ttl_governs_expiry`: with `T = 100`, a get
at `t = 4000 > 3600` misses. -/
theorem C8_default_ttl_governs_expiry_witness :
    (0 : Int) < 100 ∧
    (CacheManager.get (CacheManager.set (freshCache 0) 0 "k" "v" (some 100) 1).2
      4000 "k").1 = none := by
  refine ⟨by norm_num, ?_⟩
  have h := (C8_default_ttl_governs_expiry 100 4000 (by norm_num) (by norm_num)).1
  rw [if_neg (by norm_num)] at h
  exact h

/-- Claim C9 counterexample: with the `smart_layer` principal's health
score at 0.25 — far below the 0.6 floor — but the peer at 1.0 (average
0.625), zero usage, synchronized updates and no messages,
`check_coordination_requirements` reports that no coordination is
needed: a single principal's low health does not trigger. -/
theorem C9_low_individual_health_does_not_trigger :
    c9Manifest.project1_health_score < 6/10 ∧
    (check_coordination_requirements (some c9Manifest) [] "smart_layer").coordination_needed
      = false := by
  constructor
  · norm_num [c9Manifest]
  · norm_num [check_coordination_requirements, get_system_status,
      get_unread_messages, localFallbackSelect, c9Manifest]

/-- Claim C9 (as amended): given a readable manifest,
`check_coordination_requirements` reports coordination needed exactly
when one of its four triggers fires: combined credit usage above 80%,
the *average* of the two principals' health scores below 0.6, the two
last-update timestamps more than 3600 seconds apart, or a
`critical`-priority message anywhere in the communication log — on the
fallback path the addressee/unread filters and the 10-cap are dropped,
so every logged message is scanned, whoever it addresses and whether or
not it was read.  (A single principal's health below the floor triggers
only through the average.) -/
theorem C9_coordination_trigger_characterization (m : Manifest)
    (log : List MessageRec) (project_name : String) :
    (check_coordination_requirements (some m) log project_name).coordination_needed = true ↔
      ((if m.daily_limit_project1 + m.daily_limit_project2 > 0 then
          (((m.daily_credits_project1 + m.daily_credits_project2 : Int) : ℚ) /
            ((m.daily_limit_project1 + m.daily_limit_project2 : Int) : ℚ)) * 100
        else 0) > 80
      ∨ (m.project1_health_score + m.project2_health_score) / 2 < 6/10
      ∨ |m.project1_last_update - m.project2_last_update| > 3600
      ∨ log.filter (fun msg => msg.priority == "critical") ≠ []) := by
  simp only [check_coordination_requirements, get_system_status, get_unread_messages,
    localFallbackSelect, Bool.or_eq_true, decide_eq_true_eq, Bool.not_eq_true',
    isEmpty_false_iff]
  push_cast
  tauto

/-- Claim C10 counterexample: with a ledger holding a settled
300000-token debit of principal `"u"` created today, a working read
denies a further 100-token request, but the same request is *allowed*
when the database read fails — the admission check fails open on an
internal error, admitting an operation because of it. -/
theorem C10_db_error_fails_open :
    (check_credit_availability (.ok [c10Row]) "u" 100 defaultCreditConfig 0).allowed
      = false ∧
    (check_credit_availability (.error ()) "u" 100 defaultCreditConfig 0).allowed
      = true := by
  decide

/-- Claim C10 (as amended): `check_credit_availability` always returns
a decision record, but a database error while reading recent usage is
swallowed inside `_get_recent_usage` as an empty usage list, so under
any valid configuration (non-zero daily limit) the check fails *open*:
the error record is never produced, the full daily limit is reported
remaining, and the request is allowed exactly when it fits the daily
limit alone. -/
theorem C10_check_availability_fail_open_on_db_error (user_id : String)
    (estimated_tokens : Int) (cfg : CreditConfig) (today : Int)
    (h : cfg.daily_limit ≠ 0) :
    (check_credit_availability (.error ()) user_id estimated_tokens cfg today).isError
      = false ∧
    ((check_credit_availability (.error ()) user_id estimated_tokens cfg today).allowed
        = true ↔ estimated_tokens ≤ cfg.daily_limit) ∧
    (check_credit_availability (.error ()) user_id estimated_tokens cfg today).remaining_balance
      = cfg.daily_limit := by
  simp only [check_credit_availability, localCreditCheck, usedToday, getRecentUsage,
    List.map_nil, List.sum_nil]
  rw [if_neg (by simpa using h)]
  constructor
  · split <;> rfl
  · constructor
    · constructor
      · intro ha
        by_contra hc
        rw [if_neg (by omega)] at ha
        exact absurd ha (by simp)
      · intro hE
        rw [if_pos (by omega)]
    · split <;> simp

/-- Witness for `C10_check_availability_fail_open_on_db_error` at a
200-token request under the default configuration. -/
theorem C10_check_availability_fail_open_on_db_error_witness :
    defaultCreditConfig.daily_limit ≠ 0 ∧
    (check_credit_availability (.error ()) "u" 200 defaultCreditConfig 0).allowed = true :=
  ⟨by decide,
    ((C10_check_availability_fail_open_on_db_error "u" 200 defaultCreditConfig 0
      (by decide)).2.1).mpr (by decide)⟩
